import Mathlib

/-!
Verification of the flood cellular-automata simulation
(src/03_flood_ca_simulation/simulate.py).

The grid is embedded as a total function `ℕ → ℕ → ℚ`; a grid of shape
`m × n` is read on indices `i < m`, `j < n`.  Machine floats are modelled
by exact rationals.  `np.roll` is embedded index-wise: rolling by `d`
along an axis of length `m` reads index `(i - d) mod m`.
-/

namespace FloodSim

abbrev Grid := ℕ → ℕ → ℚ

/-- `np.roll(g, d, axis=0)`: entry `(i, j)` of the rolled grid is entry
`((i - d) mod m, j)` of `g`. -/
def rollRow (m : ℕ) (d : ℤ) (g : Grid) : Grid :=
  fun i j => g ((((i : ℤ) - d) % (m : ℤ)).toNat) j

/-- `np.roll(g, d, axis=1)`. -/
def rollCol (n : ℕ) (d : ℤ) (g : Grid) : Grid :=
  fun i j => g i ((((j : ℤ) - d) % (n : ℤ)).toNat)

/-- `np.roll(np.roll(g, d, axis=0), e, axis=1)` as in the source. -/
def roll2 (m n : ℕ) (d e : ℤ) (g : Grid) : Grid :=
  rollCol n e (rollRow m d g)

/-- The Von Neumann neighbourhood offsets `[(-1,0),(1,0),(0,-1),(0,1)]`
from the source. -/
def neighbours : List (ℤ × ℤ) := [(-1, 0), (1, 0), (0, -1), (0, 1)]

/-- Line 49-53 of the source: `flux += np.clip(H - shifted, 0, None)`
accumulated over the four neighbour directions. -/
def flux (m n : ℕ) (H : Grid) : Grid :=
  fun i j =>
    (neighbours.map (fun d => max 0 (H i j - roll2 m n d.1 d.2 H i j))).sum

/-- Line 58-59 of the source:
`water += 0.05 * np.roll(np.roll(moved, -di, axis=0), -dj, axis=1)`
accumulated over the four directions. -/
def inflow (m n : ℕ) (moved : Grid) : Grid :=
  fun i j =>
    (neighbours.map (fun d => (1 / 20 : ℚ) * roll2 m n (-d.1) (-d.2) moved i j)).sum

/-- `water[k,:] *= 0.7` (in-place scaling of row `k`). -/
def scaleRow (k : ℕ) (w : Grid) : Grid :=
  fun i j => if i = k then (7 / 10 : ℚ) * w i j else w i j

/-- `water[:,k] *= 0.7` (in-place scaling of column `k`). -/
def scaleCol (k : ℕ) (w : Grid) : Grid :=
  fun i j => if j = k then (7 / 10 : ℚ) * w i j else w i j

/-- Line 66 of the source, the four sequential in-place border updates:
`water[0,:] *= 0.7; water[-1,:] *= 0.7; water[:,0] *= 0.7; water[:,-1] *= 0.7`. -/
def edgeOutflow (m n : ℕ) (w : Grid) : Grid :=
  scaleCol (n - 1) (scaleCol 0 (scaleRow (m - 1) (scaleRow 0 w)))

/-- The keyword parameters of `simulate`. -/
structure Config where
  rainfall_mm : ℚ
  steps : ℕ
  infiltration_m : ℚ
  allow_edge_outflow : Bool

/-- Line 43: `water += rain_per_step`. -/
def rainedW (rain : ℚ) (w : Grid) : Grid :=
  fun i j => w i j + rain

/-- Line 46: `H = dem + water`. -/
def surfaceOf (dem w : Grid) : Grid :=
  fun i j => dem i j + w i j

/-- Line 55: `moved = 0.2 * flux`, with `flux` computed from the surface
after rainfall. -/
def movedOf (m n : ℕ) (dem : Grid) (rain : ℚ) (w : Grid) : Grid :=
  fun i j => (1 / 5 : ℚ) * flux m n (surfaceOf dem (rainedW rain w)) i j

/-- Line 56: `water = np.clip(water - moved, 0, None)`. -/
def afterOutflow (m n : ℕ) (dem : Grid) (rain : ℚ) (w : Grid) : Grid :=
  fun i j => max 0 (rainedW rain w i j - movedOf m n dem rain w i j)

/-- Lines 58-59: the redistribution loop added on top of the clipped grid. -/
def afterInflow (m n : ℕ) (dem : Grid) (rain : ℚ) (w : Grid) : Grid :=
  fun i j => afterOutflow m n dem rain w i j + inflow m n (movedOf m n dem rain w) i j

/-- Line 62: `water = np.clip(water - infiltration_m, 0, None)`. -/
def afterInfiltration (m n : ℕ) (dem : Grid) (inf_m rain : ℚ) (w : Grid) : Grid :=
  fun i j => max 0 (afterInflow m n dem rain w i j - inf_m)

/-- One iteration of the `for _ in range(steps)` loop (lines 41-66). -/
def step (m n : ℕ) (dem : Grid) (inf_m : ℚ) (edge : Bool) (rain : ℚ) (w : Grid) : Grid :=
  if edge then edgeOutflow m n (afterInfiltration m n dem inf_m rain w)
  else afterInfiltration m n dem inf_m rain w

/-- Line 36: `rain_per_step = (rainfall_mm / 1000.0) / steps`. -/
def rainPerStep (cfg : Config) : ℚ :=
  cfg.rainfall_mm / 1000 / (cfg.steps : ℚ)

/-- The whole of `simulate`: start from `np.zeros_like(dem)` and iterate
the step `cfg.steps` times. -/
def simulate (m n : ℕ) (dem : Grid) (cfg : Config) : Grid :=
  (step m n dem cfg.infiltration_m cfg.allow_edge_outflow (rainPerStep cfg))^[cfg.steps]
    (fun _ _ => 0)

/-- The only runtime failure the Python function can raise:
`rainfall_mm / 1000.0 / steps` divides by zero when `steps = 0`. -/
inductive SimError where
  | zeroDivisionError
deriving DecidableEq

/-- `simulate` with the Python division-by-zero behaviour made explicit:
the body raises iff `steps = 0`, and otherwise runs to completion. -/
def simulateChecked (m n : ℕ) (dem : Grid) (cfg : Config) : Except SimError Grid :=
  if cfg.steps = 0 then Except.error SimError.zeroDivisionError
  else Except.ok (simulate m n dem cfg)

/-- Whether an `Except` result is a normal return. -/
def exceptIsOk : Except SimError Grid → Bool
  | Except.ok _ => true
  | Except.error _ => false

/-- Sum of all cell depths of an `m × n` grid. -/
def totalDepth (m n : ℕ) (w : Grid) : ℚ :=
  ∑ i ∈ Finset.range m, ∑ j ∈ Finset.range n, w i j

/-- The outflow potential exactly as the specification words it: for a cell
`(r, c)`, the sum over the four axis-aligned directions of
`max 0 (surface[r][c] - surface[neighbour])`, where the neighbour of a
boundary cell is the cell on the opposite edge (periodic wrap-around). -/
def specOutflowPotential (m n : ℕ) (H : Grid) : Grid :=
  fun r c =>
    max 0 (H r c - H ((r + 1) % m) c)
      + max 0 (H r c - H ((r + (m - 1)) % m) c)
      + max 0 (H r c - H r ((c + 1) % n))
      + max 0 (H r c - H r ((c + (n - 1)) % n))

/-- The full program state: the elevation grid and the water grid.  The
source mutates only the `water` array in place; `dem` is only ever read. -/
structure SimState where
  dem : Grid
  water : Grid

/-- One loop iteration at the state level, mirroring the source line by
line: each line rebinds the water field, the elevation field is only read. -/
def stepS (m n : ℕ) (inf_m : ℚ) (edge : Bool) (rain : ℚ) (s : SimState) : SimState :=
  let s1 := SimState.mk s.dem (rainedW rain s.water)
  let moved : Grid := fun i j => (1 / 5 : ℚ) * flux m n (surfaceOf s1.dem s1.water) i j
  let s2 := SimState.mk s1.dem (fun i j => max 0 (s1.water i j - moved i j))
  let s3 := SimState.mk s2.dem (fun i j => s2.water i j + inflow m n moved i j)
  let s4 := SimState.mk s3.dem (fun i j => max 0 (s3.water i j - inf_m))
  if edge then SimState.mk s4.dem (edgeOutflow m n s4.water) else s4

/-- The whole run at the state level. -/
def simulateS (m n : ℕ) (dem : Grid) (cfg : Config) : SimState :=
  (stepS m n cfg.infiltration_m cfg.allow_edge_outflow (rainPerStep cfg))^[cfg.steps]
    (SimState.mk dem (fun _ _ => 0))

/-- A `1 × 2` terrain with a ridge cell: elevation `0` at column `0` and
`1` at column `1`. -/
def demRidge : Grid := fun _ j => if j = 1 then 1 else 0

/-- A `1 × 2` terrain with a tall cell: elevation `0` at column `0` and
`100` at column `1`. -/
def demTall : Grid := fun _ j => if j = 1 then 100 else 0

/-- Rotating the index by one does not change a sum over `range m`. -/
lemma sum_range_rotate (m : ℕ) (hm : 0 < m) (f : ℕ → ℚ) :
    ∑ i ∈ Finset.range m, f ((i + 1) % m) = ∑ i ∈ Finset.range m, f i := by
  obtain ⟨t, rfl⟩ := Nat.exists_eq_succ_of_ne_zero hm.ne'
  rw [Finset.sum_range_succ, Finset.sum_range_succ']
  congr 1
  · refine Finset.sum_congr rfl (fun i hi => ?_)
    rw [Finset.mem_range] at hi
    rw [Nat.mod_eq_of_lt (by omega)]
  · rw [Nat.mod_self]

/-- Rotating the index by any `k` does not change a sum over `range m`. -/
lemma sum_range_mod_shift (m k : ℕ) (hm : 0 < m) (f : ℕ → ℚ) :
    ∑ i ∈ Finset.range m, f ((i + k) % m) = ∑ i ∈ Finset.range m, f i := by
  induction k with
  | zero =>
      refine Finset.sum_congr rfl (fun i hi => ?_)
      rw [Finset.mem_range] at hi
      rw [Nat.add_zero, Nat.mod_eq_of_lt hi]
  | succ k ih =>
      have h1 : ∀ i : ℕ, (i + (k + 1)) % m = ((i + 1) % m + k) % m := by
        intro i
        rw [Nat.mod_add_mod]
        congr 1
        omega
      calc ∑ i ∈ Finset.range m, f ((i + (k + 1)) % m)
          = ∑ i ∈ Finset.range m, f (((i + 1) % m + k) % m) :=
            Finset.sum_congr rfl (fun i _ => by rw [h1])
        _ = ∑ i ∈ Finset.range m, f ((i + k) % m) :=
            sum_range_rotate m hm (fun x => f ((x + k) % m))
        _ = ∑ i ∈ Finset.range m, f i := ih

/-- The rolled index `((i - d) mod m).toNat` is a natural-number rotation. -/
lemma emod_shift_toNat (m : ℕ) (hm : 0 < m) (d : ℤ) (i : ℕ) :
    (((i : ℤ) - d) % (m : ℤ)).toNat = (i + ((-d) % (m : ℤ)).toNat) % m := by
  have hm' : (0 : ℤ) < (m : ℤ) := by exact_mod_cast hm
  have he0 : 0 ≤ (-d) % (m : ℤ) := Int.emod_nonneg _ hm'.ne'
  have h1 : ((i : ℤ) - d) % (m : ℤ) = ((i : ℤ) + (-d) % (m : ℤ)) % (m : ℤ) := by
    rw [sub_eq_add_neg, Int.add_emod, Int.add_emod (i : ℤ) ((-d) % (m : ℤ)),
      Int.emod_emod_of_dvd _ dvd_rfl]
  have h2 : (i : ℤ) + (-d) % (m : ℤ) = ((i + ((-d) % (m : ℤ)).toNat : ℕ) : ℤ) := by
    push_cast [Int.toNat_of_nonneg he0]
    ring
  rw [h1, h2, ← Int.natCast_mod, Int.toNat_natCast]

/-- Rolling the index with the source's `(i - d) mod m` rule does not change
a sum over `range m`. -/
lemma sum_range_emod_shift (m : ℕ) (hm : 0 < m) (d : ℤ) (f : ℕ → ℚ) :
    ∑ i ∈ Finset.range m, f ((((i : ℤ) - d) % (m : ℤ)).toNat)
      = ∑ i ∈ Finset.range m, f i := by
  calc ∑ i ∈ Finset.range m, f ((((i : ℤ) - d) % (m : ℤ)).toNat)
      = ∑ i ∈ Finset.range m, f ((i + ((-d) % (m : ℤ)).toNat) % m) :=
        Finset.sum_congr rfl (fun i _ => by rw [emod_shift_toNat m hm d i])
    _ = ∑ i ∈ Finset.range m, f i :=
        sum_range_mod_shift m (((-d) % (m : ℤ)).toNat) hm f

/-- Row-rolling preserves the total depth. -/
lemma totalDepth_rollRow (m n : ℕ) (hm : 0 < m) (d : ℤ) (g : Grid) :
    totalDepth m n (rollRow m d g) = totalDepth m n g := by
  unfold totalDepth rollRow
  exact sum_range_emod_shift m hm d (fun r => ∑ j ∈ Finset.range n, g r j)

/-- Column-rolling preserves the total depth. -/
lemma totalDepth_rollCol (m n : ℕ) (hn : 0 < n) (e : ℤ) (g : Grid) :
    totalDepth m n (rollCol n e g) = totalDepth m n g := by
  unfold totalDepth rollCol
  exact Finset.sum_congr rfl (fun i _ => sum_range_emod_shift n hn e (fun c => g i c))

/-- Two-axis rolling preserves the total depth. -/
lemma totalDepth_roll2 (m n : ℕ) (hm : 0 < m) (hn : 0 < n) (d e : ℤ) (g : Grid) :
    totalDepth m n (roll2 m n d e g) = totalDepth m n g := by
  unfold roll2
  rw [totalDepth_rollCol m n hn e (rollRow m d g), totalDepth_rollRow m n hm d g]

/-- `flux` written out over the four concrete neighbour directions. -/
lemma flux_apply (m n : ℕ) (H : Grid) (i j : ℕ) :
    flux m n H i j
      = max 0 (H i j - roll2 m n (-1) 0 H i j)
        + (max 0 (H i j - roll2 m n 1 0 H i j)
        + (max 0 (H i j - roll2 m n 0 (-1) H i j)
        + (max 0 (H i j - roll2 m n 0 1 H i j) + 0))) := by
  simp only [flux, neighbours, List.map_cons, List.map_nil, List.sum_cons, List.sum_nil]

/-- `inflow` written out over the four concrete directions (offsets negated). -/
lemma inflow_apply (m n : ℕ) (g : Grid) (i j : ℕ) :
    inflow m n g i j
      = (1 / 20 : ℚ) * roll2 m n 1 0 g i j
        + ((1 / 20 : ℚ) * roll2 m n (-1) 0 g i j
        + ((1 / 20 : ℚ) * roll2 m n 0 1 g i j
        + ((1 / 20 : ℚ) * roll2 m n 0 (-1) g i j + 0))) := by
  simp only [inflow, neighbours, List.map_cons, List.map_nil, List.sum_cons, List.sum_nil]
  norm_num

/-- The accumulated outflow potential is never negative. -/
lemma flux_nonneg (m n : ℕ) (H : Grid) (i j : ℕ) : 0 ≤ flux m n H i j := by
  rw [flux_apply]
  positivity

/-- `moved = 0.2 * flux` is never negative. -/
lemma movedOf_nonneg (m n : ℕ) (dem : Grid) (rain : ℚ) (w : Grid) (i j : ℕ) :
    0 ≤ movedOf m n dem rain w i j := by
  unfold movedOf
  have := flux_nonneg m n (surfaceOf dem (rainedW rain w)) i j
  positivity

/-- A rolled copy of a pointwise-nonnegative grid is pointwise nonnegative. -/
lemma roll2_nonneg (m n : ℕ) (d e : ℤ) (g : Grid) (hg : ∀ a b, 0 ≤ g a b) (i j : ℕ) :
    0 ≤ roll2 m n d e g i j :=
  hg _ _

/-- Redistributed inflow from a nonnegative `moved` grid is nonnegative. -/
lemma inflow_nonneg (m n : ℕ) (g : Grid) (hg : ∀ i j, 0 ≤ g i j) (i j : ℕ) :
    0 ≤ inflow m n g i j := by
  rw [inflow_apply]
  have h1 := roll2_nonneg m n 1 0 g hg i j
  have h2 := roll2_nonneg m n (-1) 0 g hg i j
  have h3 := roll2_nonneg m n 0 1 g hg i j
  have h4 := roll2_nonneg m n 0 (-1) g hg i j
  linarith

/-- The grid after the clipped outflow removal is nonnegative. -/
lemma afterOutflow_nonneg (m n : ℕ) (dem : Grid) (rain : ℚ) (w : Grid) (i j : ℕ) :
    0 ≤ afterOutflow m n dem rain w i j :=
  le_max_left 0 _

/-- The grid after redistribution is nonnegative. -/
lemma afterInflow_nonneg (m n : ℕ) (dem : Grid) (rain : ℚ) (w : Grid) (i j : ℕ) :
    0 ≤ afterInflow m n dem rain w i j := by
  unfold afterInflow
  have h1 := afterOutflow_nonneg m n dem rain w i j
  have h2 := inflow_nonneg m n (movedOf m n dem rain w) (movedOf_nonneg m n dem rain w) i j
  linarith

/-- The grid after infiltration is nonnegative. -/
lemma afterInfiltration_nonneg (m n : ℕ) (dem : Grid) (inf_m rain : ℚ) (w : Grid) (i j : ℕ) :
    0 ≤ afterInfiltration m n dem inf_m rain w i j :=
  le_max_left 0 _

/-- With `infiltration = 0` the infiltration clip is the identity. -/
lemma afterInfiltration_zero (m n : ℕ) (dem : Grid) (rain : ℚ) (w : Grid) (i j : ℕ) :
    afterInfiltration m n dem 0 rain w i j = afterInflow m n dem rain w i j := by
  unfold afterInfiltration
  rw [sub_zero, max_eq_right (afterInflow_nonneg m n dem rain w i j)]

/-- Infiltration (with a nonnegative rate) can only lower a cell's depth. -/
lemma afterInfiltration_le (m n : ℕ) (dem : Grid) (inf_m rain : ℚ) (hinf : 0 ≤ inf_m)
    (w : Grid) (i j : ℕ) :
    afterInfiltration m n dem inf_m rain w i j ≤ afterInflow m n dem rain w i j :=
  max_le (afterInflow_nonneg m n dem rain w i j)
    (sub_le_self _ hinf)

/-- Edge outflow keeps a nonnegative cell nonnegative and never raises it. -/
lemma edgeOutflow_le (m n : ℕ) (w : Grid) (i j : ℕ) (hw : 0 ≤ w i j) :
    0 ≤ edgeOutflow m n w i j ∧ edgeOutflow m n w i j ≤ w i j := by
  unfold edgeOutflow scaleCol scaleRow
  split_ifs <;> constructor <;> linarith

/-- Pointwise domination gives domination of totals. -/
lemma totalDepth_mono (m n : ℕ) (f g : Grid)
    (h : ∀ i < m, ∀ j < n, f i j ≤ g i j) :
    totalDepth m n f ≤ totalDepth m n g := by
  unfold totalDepth
  refine Finset.sum_le_sum (fun i hi => Finset.sum_le_sum (fun j hj => ?_))
  exact h i (Finset.mem_range.mp hi) j (Finset.mem_range.mp hj)

/-- A pointwise-nonnegative grid has nonnegative total. -/
lemma totalDepth_nonneg (m n : ℕ) (g : Grid) (hg : ∀ i j, 0 ≤ g i j) :
    0 ≤ totalDepth m n g :=
  Finset.sum_nonneg (fun _ _ => Finset.sum_nonneg (fun _ _ => hg _ _))

/-- Totals of pointwise sums split. -/
lemma totalDepth_add (m n : ℕ) (f g : Grid) :
    totalDepth m n (fun i j => f i j + g i j) = totalDepth m n f + totalDepth m n g := by
  unfold totalDepth
  rw [← Finset.sum_add_distrib]
  exact Finset.sum_congr rfl (fun i _ => Finset.sum_add_distrib)

/-- Totals of pointwise scalings split. -/
lemma totalDepth_smul (m n : ℕ) (c : ℚ) (g : Grid) :
    totalDepth m n (fun i j => c * g i j) = c * totalDepth m n g := by
  unfold totalDepth
  rw [Finset.mul_sum]
  exact Finset.sum_congr rfl (fun i _ => by rw [Finset.mul_sum])

/-- Rainfall deposition adds exactly `rows × cols × rain` to the total. -/
lemma totalDepth_rainedW (m n : ℕ) (rain : ℚ) (w : Grid) :
    totalDepth m n (rainedW rain w) = totalDepth m n w + (m : ℚ) * (n : ℚ) * rain := by
  unfold totalDepth rainedW
  have hrow : ∀ i : ℕ, ∑ j ∈ Finset.range n, (w i j + rain)
      = (∑ j ∈ Finset.range n, w i j) + (n : ℚ) * rain := by
    intro i
    rw [Finset.sum_add_distrib, Finset.sum_const, Finset.card_range, nsmul_eq_mul]
  calc ∑ i ∈ Finset.range m, ∑ j ∈ Finset.range n, (w i j + rain)
      = ∑ i ∈ Finset.range m, ((∑ j ∈ Finset.range n, w i j) + (n : ℚ) * rain) :=
        Finset.sum_congr rfl (fun i _ => hrow i)
    _ = (∑ i ∈ Finset.range m, ∑ j ∈ Finset.range n, w i j) + (m : ℚ) * ((n : ℚ) * rain) := by
        rw [Finset.sum_add_distrib, Finset.sum_const, Finset.card_range, nsmul_eq_mul]
    _ = (∑ i ∈ Finset.range m, ∑ j ∈ Finset.range n, w i j) + (m : ℚ) * (n : ℚ) * rain := by
        ring

/-- The redistribution loop returns exactly one fifth of the moved total:
each of the four directions adds a rolled copy weighted `0.05`. -/
lemma totalDepth_inflow (m n : ℕ) (hm : 0 < m) (hn : 0 < n) (g : Grid) :
    totalDepth m n (inflow m n g) = (1 / 5 : ℚ) * totalDepth m n g := by
  have h1 : totalDepth m n (inflow m n g)
      = totalDepth m n (fun i j => (1 / 20 : ℚ) * roll2 m n 1 0 g i j
          + ((1 / 20 : ℚ) * roll2 m n (-1) 0 g i j
          + ((1 / 20 : ℚ) * roll2 m n 0 1 g i j
          + ((1 / 20 : ℚ) * roll2 m n 0 (-1) g i j + 0)))) := by
    unfold totalDepth
    exact Finset.sum_congr rfl (fun i _ => Finset.sum_congr rfl (fun j _ =>
      inflow_apply m n g i j))
  have hr : ∀ d e : ℤ, totalDepth m n (fun i j => (1 / 20 : ℚ) * roll2 m n d e g i j)
      = (1 / 20 : ℚ) * totalDepth m n g := by
    intro d e
    rw [totalDepth_smul m n (1 / 20 : ℚ) (roll2 m n d e g),
      totalDepth_roll2 m n hm hn d e g]
  rw [h1]
  rw [totalDepth_add m n _ (fun i j => (1 / 20 : ℚ) * roll2 m n (-1) 0 g i j
      + ((1 / 20 : ℚ) * roll2 m n 0 1 g i j
      + ((1 / 20 : ℚ) * roll2 m n 0 (-1) g i j + 0)))]
  rw [totalDepth_add m n _ (fun i j => (1 / 20 : ℚ) * roll2 m n 0 1 g i j
      + ((1 / 20 : ℚ) * roll2 m n 0 (-1) g i j + 0))]
  rw [totalDepth_add m n _ (fun i j => (1 / 20 : ℚ) * roll2 m n 0 (-1) g i j + 0)]
  rw [totalDepth_add m n _ (fun _ _ => 0)]
  rw [hr 1 0, hr (-1) 0, hr 0 1, hr 0 (-1)]
  have hz : totalDepth m n (fun _ _ => (0 : ℚ)) = 0 := by
    unfold totalDepth
    simp
  rw [hz]
  ring

/-- The total after redistribution: the clipped total plus one fifth of the
moved total. -/
lemma totalDepth_afterInflow (m n : ℕ) (hm : 0 < m) (hn : 0 < n)
    (dem : Grid) (rain : ℚ) (w : Grid) :
    totalDepth m n (afterInflow m n dem rain w)
      = totalDepth m n (afterOutflow m n dem rain w)
        + (1 / 5 : ℚ) * totalDepth m n (movedOf m n dem rain w) := by
  calc totalDepth m n (afterInflow m n dem rain w)
      = totalDepth m n (fun i j => afterOutflow m n dem rain w i j
          + inflow m n (movedOf m n dem rain w) i j) := rfl
    _ = totalDepth m n (afterOutflow m n dem rain w)
        + totalDepth m n (inflow m n (movedOf m n dem rain w)) :=
        totalDepth_add m n _ _
    _ = totalDepth m n (afterOutflow m n dem rain w)
        + (1 / 5 : ℚ) * totalDepth m n (movedOf m n dem rain w) := by
        rw [totalDepth_inflow m n hm hn]

/-- When no cell's removal is clamped, outflow removal subtracts exactly the
moved total. -/
lemma totalDepth_afterOutflow (m n : ℕ) (dem : Grid) (rain : ℚ) (w : Grid)
    (hclamp : ∀ i < m, ∀ j < n, movedOf m n dem rain w i j ≤ rainedW rain w i j) :
    totalDepth m n (afterOutflow m n dem rain w)
      = totalDepth m n (rainedW rain w) - totalDepth m n (movedOf m n dem rain w) := by
  have hpt : ∀ i < m, ∀ j < n, afterOutflow m n dem rain w i j
      = rainedW rain w i j - movedOf m n dem rain w i j := by
    intro i hi j hj
    unfold afterOutflow
    rw [max_eq_right (sub_nonneg.mpr (hclamp i hi j hj))]
  unfold totalDepth
  calc ∑ i ∈ Finset.range m, ∑ j ∈ Finset.range n, afterOutflow m n dem rain w i j
      = ∑ i ∈ Finset.range m, ∑ j ∈ Finset.range n,
          (rainedW rain w i j - movedOf m n dem rain w i j) :=
        Finset.sum_congr rfl (fun i hi => Finset.sum_congr rfl (fun j hj =>
          hpt i (Finset.mem_range.mp hi) j (Finset.mem_range.mp hj)))
    _ = ∑ i ∈ Finset.range m, ((∑ j ∈ Finset.range n, rainedW rain w i j)
          - ∑ j ∈ Finset.range n, movedOf m n dem rain w i j) :=
        Finset.sum_congr rfl (fun i _ => Finset.sum_sub_distrib)
    _ = _ := Finset.sum_sub_distrib

/-- On a constant surface every clipped difference vanishes. -/
lemma flux_const (m n : ℕ) (c : ℚ) (H : Grid) (hH : ∀ i j, H i j = c) (i j : ℕ) :
    flux m n H i j = 0 := by
  simp [flux_apply, roll2, rollRow, rollCol, hH]

/-- Redistribution of an identically-zero moved grid adds nothing. -/
lemma inflow_zero (m n : ℕ) (g : Grid) (hg : ∀ i j, g i j = 0) (i j : ℕ) :
    inflow m n g i j = 0 := by
  simp [inflow_apply, roll2, rollRow, rollCol, hg]

/-- Edge outflow maps the all-zero grid to itself. -/
lemma edgeOutflow_zero (m n : ℕ) (w : Grid) (hw : ∀ i j, w i j = 0) (i j : ℕ) :
    edgeOutflow m n w i j = 0 := by
  unfold edgeOutflow scaleCol scaleRow
  split_ifs <;> simp [hw]

/-- On constant terrain, a step without edge outflow maps a constant water
grid to the constant `max 0 (a + rain - inf)`. -/
lemma step_const (m n : ℕ) (e a rain inf_m : ℚ) (dem : Grid)
    (hdem : ∀ i j, dem i j = e) (ha : 0 ≤ a + rain) :
    step m n dem inf_m false rain (fun _ _ => a)
      = fun _ _ => max 0 (a + rain - inf_m) := by
  have hsurf : ∀ i j, surfaceOf dem (rainedW rain (fun _ _ => a)) i j = e + (a + rain) := by
    intro i j
    unfold surfaceOf rainedW
    rw [hdem i j]
  have hmoved : ∀ i j, movedOf m n dem rain (fun _ _ => a) i j = 0 := by
    intro i j
    unfold movedOf
    rw [flux_const m n (e + (a + rain)) _ hsurf i j, mul_zero]
  have hout : ∀ i j, afterOutflow m n dem rain (fun _ _ => a) i j = a + rain := by
    intro i j
    unfold afterOutflow
    rw [hmoved i j]
    unfold rainedW
    rw [sub_zero, max_eq_right ha]
  have hin : ∀ i j, afterInflow m n dem rain (fun _ _ => a) i j = a + rain := by
    intro i j
    unfold afterInflow
    rw [hout i j, inflow_zero m n _ hmoved i j, add_zero]
  funext i j
  show afterInfiltration m n dem inf_m rain (fun _ _ => a) i j = max 0 (a + rain - inf_m)
  unfold afterInfiltration
  rw [hin i j]

/-- On constant terrain with zero rainfall and zero infiltration, one step
(with either edge setting) fixes the all-zero water grid. -/
lemma step_zero_const (m n : ℕ) (e : ℚ) (dem : Grid) (hdem : ∀ i j, dem i j = e)
    (edge : Bool) (i j : ℕ) :
    step m n dem 0 edge 0 (fun _ _ => 0) i j = 0 := by
  have hbase : ∀ a b : ℕ, afterInfiltration m n dem 0 0 (fun _ _ => 0) a b = 0 := by
    intro a b
    have h := congrFun (congrFun (step_const m n e 0 0 0 dem hdem (by norm_num)) a) b
    unfold step at h
    simpa using h
  cases edge with
  | false =>
      show afterInfiltration m n dem 0 0 (fun _ _ => 0) i j = 0
      exact hbase i j
  | true =>
      show edgeOutflow m n (afterInfiltration m n dem 0 0 (fun _ _ => 0)) i j = 0
      exact edgeOutflow_zero m n _ hbase i j

/-- On constant terrain without infiltration or edge outflow, `t` steps of
the simulation deposit exactly `t` rain units on every cell. -/
lemma iterate_const (m n : ℕ) (e rain : ℚ) (dem : Grid) (hdem : ∀ i j, dem i j = e)
    (hrain : 0 ≤ rain) (t : ℕ) :
    (step m n dem 0 false rain)^[t] (fun _ _ => 0) = fun _ _ => (t : ℚ) * rain := by
  induction t with
  | zero =>
      funext i j
      simp
  | succ t ih =>
      rw [Function.iterate_succ_apply', ih]
      rw [step_const m n e ((t : ℚ) * rain) rain 0 dem hdem (by positivity)]
      funext i j
      rw [sub_zero, max_eq_right (by positivity)]
      push_cast
      ring

/-- Every step produces a pointwise-nonnegative grid, whatever its input. -/
lemma step_nonneg (m n : ℕ) (dem : Grid) (inf_m : ℚ) (edge : Bool) (rain : ℚ)
    (w : Grid) (i j : ℕ) :
    0 ≤ step m n dem inf_m edge rain w i j := by
  cases edge with
  | false => exact afterInfiltration_nonneg m n dem inf_m rain w i j
  | true =>
      show 0 ≤ edgeOutflow m n (afterInfiltration m n dem inf_m rain w) i j
      exact (edgeOutflow_le m n _ i j (afterInfiltration_nonneg m n dem inf_m rain w i j)).1

/-- The state-level step never rewrites the elevation field. -/
lemma stepS_dem (m n : ℕ) (inf_m : ℚ) (edge : Bool) (rain : ℚ) (s : SimState) :
    (stepS m n inf_m edge rain s).dem = s.dem := by
  cases edge <;> rfl

/-- The state-level step evolves the water field by the functional step. -/
lemma stepS_water (m n : ℕ) (inf_m : ℚ) (edge : Bool) (rain : ℚ) (s : SimState) :
    (stepS m n inf_m edge rain s).water = step m n s.dem inf_m edge rain s.water := by
  cases edge <;> rfl

/-- Rolling one row backwards reads the wrap-around successor index. -/
lemma idx_add_one (m : ℕ) (hm : 0 < m) (r : ℕ) :
    (((r : ℤ) - (-1)) % (m : ℤ)).toNat = (r + 1) % m := by
  rw [emod_shift_toNat m hm (-1) r]
  have h1 : ((-(-1 : ℤ)) % (m : ℤ)).toNat = 1 % m := by
    rw [neg_neg, show (1 : ℤ) = ((1 : ℕ) : ℤ) from rfl, ← Int.natCast_mod,
      Int.toNat_natCast]
  rw [h1, Nat.add_mod_mod]

/-- Rolling one row forwards reads the wrap-around predecessor index. -/
lemma idx_sub_one (m : ℕ) (hm : 0 < m) (r : ℕ) :
    (((r : ℤ) - 1) % (m : ℤ)).toNat = (r + (m - 1)) % m := by
  rw [emod_shift_toNat m hm 1 r]
  have hm' : (0 : ℤ) < (m : ℤ) := by exact_mod_cast hm
  have h1 : (-1 : ℤ) % (m : ℤ) = (m : ℤ) - 1 := by
    rw [show (-1 : ℤ) = ((m : ℤ) - 1) + (m : ℤ) * (-1) from by ring,
      Int.add_mul_emod_self_left, Int.emod_eq_of_lt (by omega) (by omega)]
  have h2 : (((-1 : ℤ)) % (m : ℤ)).toNat = m - 1 := by
    rw [h1]
    omega
  rw [h2]

/-- A zero roll reads the index itself. -/
lemma idx_zero (m : ℕ) (r : ℕ) (hr : r < m) :
    (((r : ℤ) - 0) % (m : ℤ)).toNat = r := by
  rw [sub_zero, ← Int.natCast_mod, Int.toNat_natCast, Nat.mod_eq_of_lt hr]

/-- The source's rolled flux equals the specification's wrap-around
neighbour formula at every in-range cell. -/
lemma flux_eq_spec (m n : ℕ) (hm : 0 < m) (hn : 0 < n) (H : Grid) (r c : ℕ)
    (hr : r < m) (hc : c < n) :
    flux m n H r c = specOutflowPotential m n H r c := by
  rw [flux_apply]
  simp only [roll2, rollRow, rollCol, specOutflowPotential]
  rw [idx_add_one m hm r, idx_sub_one m hm r, idx_zero m r hr,
    idx_add_one n hn c, idx_sub_one n hn c, idx_zero n c hc]
  ring

/-- Concrete evaluation: `1 × 2` ridge terrain, 50 mm in one step, cell 0. -/
lemma simC1_cell0 : simulate 1 2 demRidge (Config.mk 50 1 0 false) 0 0 = 9 / 100 := by
  unfold simulate
  rw [Function.iterate_one]
  norm_num [step, rainPerStep, afterInfiltration, afterInflow, afterOutflow, movedOf,
    inflow, flux, neighbours, surfaceOf, rainedW, roll2, rollRow, rollCol, demRidge]

/-- Concrete evaluation: `1 × 2` ridge terrain, 50 mm in one step, cell 1. -/
lemma simC1_cell1 : simulate 1 2 demRidge (Config.mk 50 1 0 false) 0 1 = 1 / 25 := by
  unfold simulate
  rw [Function.iterate_one]
  norm_num [step, rainPerStep, afterInfiltration, afterInflow, afterOutflow, movedOf,
    inflow, flux, neighbours, surfaceOf, rainedW, roll2, rollRow, rollCol, demRidge]

/-- Concrete evaluation: `1 × 2` ridge terrain, zero rainfall, one step, cell 0. -/
lemma simC2_cell0 : simulate 1 2 demRidge (Config.mk 0 1 0 false) 0 0 = 1 / 25 := by
  unfold simulate
  rw [Function.iterate_one]
  norm_num [step, rainPerStep, afterInfiltration, afterInflow, afterOutflow, movedOf,
    inflow, flux, neighbours, surfaceOf, rainedW, roll2, rollRow, rollCol, demRidge]

/-- Concrete evaluation: `1 × 2` tall terrain, zero rainfall, infiltration
`1/1000`, one step, cell 0. -/
lemma simC3_cell0 : simulate 1 2 demTall (Config.mk 0 1 (1 / 1000) false) 0 0
    = 3999 / 1000 := by
  unfold simulate
  rw [Function.iterate_one]
  norm_num [step, rainPerStep, afterInfiltration, afterInflow, afterOutflow, movedOf,
    inflow, flux, neighbours, surfaceOf, rainedW, roll2, rollRow, rollCol, demTall]

/-- Concrete evaluation: `1 × 2` tall terrain, zero rainfall, infiltration
`1/1000`, one step, cell 1. -/
lemma simC3_cell1 : simulate 1 2 demTall (Config.mk 0 1 (1 / 1000) false) 0 1
    = 3999 / 1000 := by
  unfold simulate
  rw [Function.iterate_one]
  norm_num [step, rainPerStep, afterInfiltration, afterInflow, afterOutflow, movedOf,
    inflow, flux, neighbours, surfaceOf, rainedW, roll2, rollRow, rollCol, demTall]

/-- C1 (counterexample): a single 50 mm step on the `1 × 2` terrain with
elevations `[0, 1]`, infiltration `0` and edge outflow disabled, yields
total depth `13/100`, not the claimed `0.05 × rows × cols = 1/10`: the
outflow-removal and inflow-redistribution substeps do not conserve depth. -/
theorem C1_counterexample :
    totalDepth 1 2 (simulate 1 2 demRidge (Config.mk 50 1 0 false)) = 13 / 100
    ∧ totalDepth 1 2 (simulate 1 2 demRidge (Config.mk 50 1 0 false))
        ≠ (1 / 20 : ℚ) * (1 * 2) := by
  have h : totalDepth 1 2 (simulate 1 2 demRidge (Config.mk 50 1 0 false)) = 13 / 100 := by
    unfold totalDepth
    rw [Finset.sum_range_succ, Finset.sum_range_zero, Finset.sum_range_succ,
      Finset.sum_range_succ, Finset.sum_range_zero, simC1_cell0, simC1_cell1]
    norm_num
  refine ⟨h, ?_⟩
  rw [h]
  norm_num

/-- C1 (amended): with infiltration `0`, edge outflow disabled and no cell
clamped by the outflow removal, one step takes the total depth to the old
total, plus the rainfall `rows × cols × rain`, minus `0.8 ×` the moved
total; equivalently, substeps 4-5 change the total after rainfall by
exactly `-0.8 ×` the moved total (the redistribution returns only `4 × 0.05`
of each removed unit), so they are not jointly mass-conserving. -/
theorem C1_flow_balance (m n : ℕ) (hm : 0 < m) (hn : 0 < n) (dem w : Grid) (rain : ℚ)
    (hclamp : ∀ i < m, ∀ j < n, movedOf m n dem rain w i j ≤ rainedW rain w i j) :
    totalDepth m n (afterInflow m n dem rain w)
      = totalDepth m n (rainedW rain w)
        - (4 / 5 : ℚ) * totalDepth m n (movedOf m n dem rain w)
    ∧ totalDepth m n (step m n dem 0 false rain w)
      = totalDepth m n w + (m : ℚ) * (n : ℚ) * rain
        - (4 / 5 : ℚ) * totalDepth m n (movedOf m n dem rain w) := by
  have h45 : totalDepth m n (afterInflow m n dem rain w)
      = totalDepth m n (rainedW rain w)
        - (4 / 5 : ℚ) * totalDepth m n (movedOf m n dem rain w) := by
    rw [totalDepth_afterInflow m n hm hn, totalDepth_afterOutflow m n dem rain w hclamp]
    ring
  refine ⟨h45, ?_⟩
  have hstep : totalDepth m n (step m n dem 0 false rain w)
      = totalDepth m n (afterInflow m n dem rain w) := by
    unfold totalDepth
    refine Finset.sum_congr rfl (fun i _ => Finset.sum_congr rfl (fun j _ => ?_))
    show afterInfiltration m n dem 0 rain w i j = afterInflow m n dem rain w i j
    exact afterInfiltration_zero m n dem rain w i j
  rw [hstep, h45, totalDepth_rainedW]

/-- Witness for C1: on the `1 × 1` zero terrain with one unit of rain the
clamping hypothesis holds and the balance identity is satisfied. -/
theorem C1_witness :
    (∀ i < 1, ∀ j < 1, movedOf 1 1 (fun _ _ => 0) 1 (fun _ _ => 0) i j
        ≤ rainedW 1 (fun _ _ => 0) i j)
    ∧ (totalDepth 1 1 (afterInflow 1 1 (fun _ _ => 0) 1 (fun _ _ => 0))
        = totalDepth 1 1 (rainedW 1 (fun _ _ => 0))
          - (4 / 5 : ℚ) * totalDepth 1 1 (movedOf 1 1 (fun _ _ => 0) 1 (fun _ _ => 0))
      ∧ totalDepth 1 1 (step 1 1 (fun _ _ => 0) 0 false 1 (fun _ _ => 0))
        = totalDepth 1 1 (fun _ _ => 0) + ((1 : ℕ) : ℚ) * ((1 : ℕ) : ℚ) * 1
          - (4 / 5 : ℚ) * totalDepth 1 1 (movedOf 1 1 (fun _ _ => 0) 1 (fun _ _ => 0))) := by
  have hc : ∀ i < 1, ∀ j < 1, movedOf 1 1 (fun _ _ => 0) 1 (fun _ _ => 0) i j
      ≤ rainedW 1 (fun _ _ => 0) i j := by
    intro i hi j hj
    have hi0 : i = 0 := by omega
    have hj0 : j = 0 := by omega
    subst hi0
    subst hj0
    norm_num [movedOf, flux, neighbours, surfaceOf, rainedW, roll2, rollRow, rollCol]
  exact ⟨hc, C1_flow_balance 1 1 (by norm_num) (by norm_num)
    (fun _ _ => 0) (fun _ _ => 0) 1 hc⟩

/-- C2 (counterexample): with zero rainfall and zero infiltration on the
non-flat `1 × 2` terrain `[0, 1]`, one step turns the all-zero depth grid
into positive depth: the redistribution substep adds `0.05 × moved` from a
dry cell whose own removal was clamped at zero. -/
theorem C2_counterexample :
    simulate 1 2 demRidge (Config.mk 0 1 0 false) 0 0 = 1 / 25
    ∧ simulate 1 2 demRidge (Config.mk 0 1 0 false) 0 0 ≠ 0 := by
  refine ⟨simC2_cell0, ?_⟩
  rw [simC2_cell0]
  norm_num

/-- C2 (amended): on every **constant-elevation** terrain, running with
`total_rainfall = 0` and `infiltration_rate = 0` from the all-zero depth
grid leaves every cell zero after every step, and in the returned grid. -/
theorem C2_flat_zero_fixed (m n : ℕ) (e : ℚ) (dem : Grid) (hdem : ∀ i j, dem i j = e)
    (cfg : Config) (hrain : cfg.rainfall_mm = 0) (hinf : cfg.infiltration_m = 0)
    (t i j : ℕ) :
    ((step m n dem cfg.infiltration_m cfg.allow_edge_outflow (rainPerStep cfg))^[t]
      (fun _ _ => 0)) i j = 0
    ∧ simulate m n dem cfg i j = 0 := by
  have hr0 : rainPerStep cfg = 0 := by
    unfold rainPerStep
    rw [hrain]
    simp
  have key : ∀ s : ℕ,
      ((step m n dem cfg.infiltration_m cfg.allow_edge_outflow (rainPerStep cfg))^[s]
        (fun _ _ => 0)) = fun _ _ => (0 : ℚ) := by
    intro s
    induction s with
    | zero => rfl
    | succ s ih =>
        rw [Function.iterate_succ_apply', ih]
        funext a b
        rw [hinf, hr0]
        exact step_zero_const m n e dem hdem cfg.allow_edge_outflow a b
  constructor
  · rw [key t]
  · unfold simulate
    rw [key cfg.steps]

/-- Witness for C2: flat `1 × 1` terrain, zero-rain zero-infiltration
configuration, one step, cell `(0,0)`. -/
theorem C2_witness :
    ((Config.mk 0 1 0 false).rainfall_mm = 0 ∧ (Config.mk 0 1 0 false).infiltration_m = 0)
    ∧ (((step 1 1 (fun _ _ => 0) (Config.mk 0 1 0 false).infiltration_m
          (Config.mk 0 1 0 false).allow_edge_outflow
          (rainPerStep (Config.mk 0 1 0 false)))^[1] (fun _ _ => 0)) 0 0 = 0
      ∧ simulate 1 1 (fun _ _ => 0) (Config.mk 0 1 0 false) 0 0 = 0) :=
  ⟨⟨rfl, rfl⟩, C2_flat_zero_fixed 1 1 0 (fun _ _ => 0) (fun _ _ => rfl)
    (Config.mk 0 1 0 false) rfl rfl 1 0 0⟩

/-- C3 (counterexample): with zero rainfall and infiltration `1/1000 > 0`
on the `1 × 2` terrain `[0, 100]`, one step raises the total depth from `0`
to `3999/500`: clamped removal plus unclamped redistribution creates depth
faster than infiltration destroys it, so the total is not non-increasing. -/
theorem C3_counterexample :
    totalDepth 1 2 (simulate 1 2 demTall (Config.mk 0 1 (1 / 1000) false)) = 3999 / 500
    ∧ ¬(totalDepth 1 2 (simulate 1 2 demTall (Config.mk 0 1 (1 / 1000) false))
        ≤ totalDepth 1 2 (fun _ _ => 0)) := by
  have h : totalDepth 1 2 (simulate 1 2 demTall (Config.mk 0 1 (1 / 1000) false))
      = 3999 / 500 := by
    unfold totalDepth
    rw [Finset.sum_range_succ, Finset.sum_range_zero, Finset.sum_range_succ,
      Finset.sum_range_succ, Finset.sum_range_zero, simC3_cell0, simC3_cell1]
    norm_num
  refine ⟨h, ?_⟩
  rw [h]
  have hz : totalDepth 1 2 (fun _ _ => (0 : ℚ)) = 0 := by
    unfold totalDepth
    simp
  rw [hz]
  norm_num

/-- C3 (amended): with zero rainfall per step, `infiltration_rate > 0`, and
no cell clamped by the outflow removal, the total depth after one step is at
most the total before it (for either edge-outflow setting). -/
theorem C3_no_clamp_monotone (m n : ℕ) (hm : 0 < m) (hn : 0 < n)
    (dem w : Grid) (inf_m : ℚ) (edge : Bool) (hinf : 0 < inf_m)
    (hclamp : ∀ i < m, ∀ j < n, movedOf m n dem 0 w i j ≤ rainedW 0 w i j) :
    totalDepth m n (step m n dem inf_m edge 0 w) ≤ totalDepth m n w := by
  have h1 : totalDepth m n (afterInflow m n dem 0 w)
      = totalDepth m n (rainedW 0 w)
        - (4 / 5 : ℚ) * totalDepth m n (movedOf m n dem 0 w) := by
    rw [totalDepth_afterInflow m n hm hn, totalDepth_afterOutflow m n dem 0 w hclamp]
    ring
  have hrw : totalDepth m n (rainedW 0 w) = totalDepth m n w := by
    rw [totalDepth_rainedW]
    ring
  have hmv : 0 ≤ totalDepth m n (movedOf m n dem 0 w) :=
    totalDepth_nonneg m n _ (movedOf_nonneg m n dem 0 w)
  have h2 : totalDepth m n (afterInflow m n dem 0 w) ≤ totalDepth m n w := by
    rw [h1, hrw]
    linarith
  have h3 : totalDepth m n (afterInfiltration m n dem inf_m 0 w)
      ≤ totalDepth m n (afterInflow m n dem 0 w) :=
    totalDepth_mono m n _ _
      (fun i _ j _ => afterInfiltration_le m n dem inf_m 0 hinf.le w i j)
  cases edge with
  | false =>
      show totalDepth m n (afterInfiltration m n dem inf_m 0 w) ≤ totalDepth m n w
      linarith
  | true =>
      show totalDepth m n (edgeOutflow m n (afterInfiltration m n dem inf_m 0 w))
        ≤ totalDepth m n w
      have h4 : totalDepth m n (edgeOutflow m n (afterInfiltration m n dem inf_m 0 w))
          ≤ totalDepth m n (afterInfiltration m n dem inf_m 0 w) :=
        totalDepth_mono m n _ _ (fun i _ j _ =>
          (edgeOutflow_le m n (afterInfiltration m n dem inf_m 0 w) i j
            (afterInfiltration_nonneg m n dem inf_m 0 w i j)).2)
      linarith

/-- Witness for C3: `1 × 1` zero terrain, zero depth, infiltration `1`. -/
theorem C3_witness :
    ((0 : ℚ) < 1
      ∧ ∀ i < 1, ∀ j < 1, movedOf 1 1 (fun _ _ => 0) 0 (fun _ _ => 0) i j
          ≤ rainedW 0 (fun _ _ => 0) i j)
    ∧ totalDepth 1 1 (step 1 1 (fun _ _ => 0) 1 false 0 (fun _ _ => 0))
        ≤ totalDepth 1 1 (fun _ _ => 0) := by
  have hc : ∀ i < 1, ∀ j < 1, movedOf 1 1 (fun _ _ => 0) 0 (fun _ _ => 0) i j
      ≤ rainedW 0 (fun _ _ => 0) i j := by
    intro i hi j hj
    have hi0 : i = 0 := by omega
    have hj0 : j = 0 := by omega
    subst hi0
    subst hj0
    norm_num [movedOf, flux, neighbours, surfaceOf, rainedW, roll2, rollRow, rollCol]
  exact ⟨⟨by norm_num, hc⟩, C3_no_clamp_monotone 1 1 (by norm_num) (by norm_num)
    (fun _ _ => 0) (fun _ _ => 0) 1 false (by norm_num) hc⟩

/-- C4 (counterexample): on a `2 × 2` all-ones grid the border cell `(0,0)`
is scaled to `0.49`, not `0.7`: the sequential row and column passes both
hit the corners. -/
theorem C4_counterexample :
    edgeOutflow 2 2 (fun _ _ => 1) 0 0 = 49 / 100
    ∧ edgeOutflow 2 2 (fun _ _ => 1) 0 0 ≠ 7 / 10 := by
  have h : edgeOutflow 2 2 (fun _ _ => 1) 0 0 = 49 / 100 := by
    norm_num [edgeOutflow, scaleRow, scaleCol]
  refine ⟨h, ?_⟩
  rw [h]
  norm_num

/-- C4 (amended): for grids with at least two rows and columns, the
edge-outflow substep multiplies corner cells by `0.49`, all other border
cells by `0.7`, and leaves interior cells unchanged. -/
theorem C4_border_scaling (m n : ℕ) (hm : 2 ≤ m) (hn : 2 ≤ n) (w : Grid) (i j : ℕ)
    (hi : i < m) (hj : j < n) :
    edgeOutflow m n w i j
      = if (i = 0 ∨ i = m - 1) ∧ (j = 0 ∨ j = n - 1) then (49 / 100 : ℚ) * w i j
        else if i = 0 ∨ i = m - 1 ∨ j = 0 ∨ j = n - 1 then (7 / 10 : ℚ) * w i j
        else w i j := by
  unfold edgeOutflow scaleCol scaleRow
  split_ifs <;> first | ring1 | (exfalso; omega)

/-- Witness for C4: the corner, edge and interior cases on a `3 × 3` grid. -/
theorem C4_witness :
    edgeOutflow 3 3 (fun _ _ => 1) 0 0 = 49 / 100
    ∧ edgeOutflow 3 3 (fun _ _ => 1) 0 1 = 7 / 10
    ∧ edgeOutflow 3 3 (fun _ _ => 1) 1 1 = 1 := by
  have h00 := C4_border_scaling 3 3 (by norm_num) (by norm_num) (fun _ _ => 1) 0 0
    (by norm_num) (by norm_num)
  have h01 := C4_border_scaling 3 3 (by norm_num) (by norm_num) (fun _ _ => 1) 0 1
    (by norm_num) (by norm_num)
  have h11 := C4_border_scaling 3 3 (by norm_num) (by norm_num) (fun _ _ => 1) 1 1
    (by norm_num) (by norm_num)
  refine ⟨?_, ?_, ?_⟩
  · rw [h00]
    norm_num
  · rw [h01]
    norm_num
  · rw [h11]
    norm_num

/-- C5: for grids with at least 2 rows and 2 columns, the edge-outflow
substep multiplies each corner cell by `0.49` (the `0.7` factor is applied
once by the row pass and again by the column pass) and multiplies border
cells that are not corners by `0.7`. -/
theorem C5_corner_scaling (m n : ℕ) (hm : 2 ≤ m) (hn : 2 ≤ n) (w : Grid) (i j : ℕ)
    (hi : i < m) (hj : j < n) :
    (((i = 0 ∨ i = m - 1) ∧ (j = 0 ∨ j = n - 1)) →
        edgeOutflow m n w i j = (49 / 100 : ℚ) * w i j)
    ∧ ((i = 0 ∨ i = m - 1 ∨ j = 0 ∨ j = n - 1) →
        ¬((i = 0 ∨ i = m - 1) ∧ (j = 0 ∨ j = n - 1)) →
        edgeOutflow m n w i j = (7 / 10 : ℚ) * w i j) := by
  constructor
  · intro hcorner
    unfold edgeOutflow scaleCol scaleRow
    split_ifs <;> first | ring1 | (exfalso; omega)
  · intro hborder hncorner
    unfold edgeOutflow scaleCol scaleRow
    split_ifs <;> first | ring1 | (exfalso; omega)

/-- Witness for C5: corner `(0,0)` and non-corner border cell `(0,1)` of a
`2 × 3` all-ones grid. -/
theorem C5_witness :
    edgeOutflow 2 3 (fun _ _ => 1) 0 0 = 49 / 100
    ∧ edgeOutflow 2 3 (fun _ _ => 1) 0 1 = 7 / 10 := by
  have h00 := (C5_corner_scaling 2 3 (by norm_num) (by norm_num) (fun _ _ => 1) 0 0
    (by norm_num) (by norm_num)).1 (by omega)
  have h01 := (C5_corner_scaling 2 3 (by norm_num) (by norm_num) (fun _ _ => 1) 0 1
    (by norm_num) (by norm_num)).2 (by omega) (by omega)
  constructor
  · rw [h00]
    norm_num
  · rw [h01]
    norm_num

/-- C6: with non-negative rainfall and non-negative infiltration, starting
from the all-zero depth grid, every cell's depth is `≥ 0` after every step
and in the returned final grid. -/
theorem C6_nonneg (m n : ℕ) (dem : Grid) (cfg : Config)
    (hrain : 0 ≤ cfg.rainfall_mm) (hinf : 0 ≤ cfg.infiltration_m) :
    (∀ t i j, 0 ≤ ((step m n dem cfg.infiltration_m cfg.allow_edge_outflow
        (rainPerStep cfg))^[t] (fun _ _ => 0)) i j)
    ∧ ∀ i j, 0 ≤ simulate m n dem cfg i j := by
  have key : ∀ t i j, 0 ≤ ((step m n dem cfg.infiltration_m cfg.allow_edge_outflow
      (rainPerStep cfg))^[t] (fun _ _ => 0)) i j := by
    intro t i j
    cases t with
    | zero => exact le_refl 0
    | succ t =>
        rw [Function.iterate_succ_apply']
        exact step_nonneg m n dem _ _ _ _ i j
  exact ⟨key, fun i j => key cfg.steps i j⟩

/-- Witness for C6: the default-style configuration `120 mm / 250 steps /
0.002 m` with edge outflow, at cell `(0,0)` of a `1 × 1` zero terrain. -/
theorem C6_witness :
    ((0 : ℚ) ≤ 120 ∧ (0 : ℚ) ≤ 2 / 1000)
    ∧ 0 ≤ simulate 1 1 (fun _ _ => 0) (Config.mk 120 250 (2 / 1000) true) 0 0 :=
  ⟨⟨by norm_num, by norm_num⟩,
    (C6_nonneg 1 1 (fun _ _ => 0) (Config.mk 120 250 (2 / 1000) true)
      (by norm_num) (by norm_num)).2 0 0⟩

/-- C7 (counterexample): the spec's scenario — `4 × 4` flat terrain,
`total_rainfall = 100` mm, `step_count = 10`, no infiltration, no edge
outflow — ends with every cell at `0.1` m, not approximately `0.01` m: the
error is nine times the claimed value, beyond any numerical tolerance. -/
theorem C7_counterexample :
    simulate 4 4 (fun _ _ => 0) (Config.mk 100 10 0 false) 0 0 = 1 / 10
    ∧ ¬(|simulate 4 4 (fun _ _ => 0) (Config.mk 100 10 0 false) 0 0 - 1 / 100|
        ≤ 1 / 100) := by
  have hr : rainPerStep (Config.mk 100 10 0 false) = 1 / 100 := by
    unfold rainPerStep
    norm_num
  have h := iterate_const 4 4 0 (1 / 100) (fun _ _ => 0) (fun _ _ => rfl)
    (by norm_num) 10
  have hv : simulate 4 4 (fun _ _ => 0) (Config.mk 100 10 0 false) 0 0 = 1 / 10 := by
    unfold simulate
    rw [hr]
    show (step 4 4 (fun _ _ => 0) 0 false ((1 : ℚ) / 100))^[10] (fun _ _ => 0) 0 0
      = 1 / 10
    rw [h]
    norm_num
  refine ⟨hv, ?_⟩
  rw [hv, abs_of_nonneg (by norm_num : (0 : ℚ) ≤ 1 / 10 - 1 / 100)]
  norm_num

/-- C7 (amended): the spec's scenario — `4 × 4` flat terrain,
`total_rainfall = 100` mm, `step_count = 10`, `infiltration_rate = 0`, edge
outflow disabled — produces a final grid in which every cell's depth is
exactly `0.1` m (the full 100 mm of rain falls on every cell; flow moves
nothing on a flat field). -/
theorem C7_flat_uniform_depth :
    simulate 4 4 (fun _ _ => 0) (Config.mk 100 10 0 false) = fun _ _ => (1 / 10 : ℚ) := by
  have hr : rainPerStep (Config.mk 100 10 0 false) = 1 / 100 := by
    unfold rainPerStep
    norm_num
  have h := iterate_const 4 4 0 (1 / 100) (fun _ _ => 0) (fun _ _ => rfl)
    (by norm_num) 10
  unfold simulate
  rw [hr]
  show (step 4 4 (fun _ _ => 0) 0 false ((1 : ℚ) / 100))^[10] (fun _ _ => 0)
    = fun _ _ => (1 / 10 : ℚ)
  rw [h]
  funext a b
  norm_num

/-- C8: within each step, after rainfall deposition, the source's rolled
flux accumulation computes exactly the spec's outflow potential — the sum
over the four directions of `max 0 (surface[r][c] - surface[neighbour])`
with periodic wrap-around neighbours read from the pre-update snapshot —
and the outflow-removal substep sets each cell's depth to
`max 0 (depth - 0.2 × outflow_potential)`. -/
theorem C8_outflow_potential (m n : ℕ) (hm : 0 < m) (hn : 0 < n) (dem w : Grid)
    (rain : ℚ) (r c : ℕ) (hr : r < m) (hc : c < n) :
    flux m n (surfaceOf dem (rainedW rain w)) r c
      = specOutflowPotential m n (surfaceOf dem (rainedW rain w)) r c
    ∧ afterOutflow m n dem rain w r c
      = max 0 (rainedW rain w r c
          - (1 / 5 : ℚ) * specOutflowPotential m n (surfaceOf dem (rainedW rain w)) r c) := by
  have h := flux_eq_spec m n hm hn (surfaceOf dem (rainedW rain w)) r c hr hc
  refine ⟨h, ?_⟩
  unfold afterOutflow movedOf
  rw [h]

/-- Witness for C8: the `2 × 2` ridge terrain with `1/20` of rain at cell
`(0,0)`. -/
theorem C8_witness :
    flux 2 2 (surfaceOf demRidge (rainedW (1 / 20) (fun _ _ => 0))) 0 0
      = specOutflowPotential 2 2 (surfaceOf demRidge (rainedW (1 / 20) (fun _ _ => 0))) 0 0
    ∧ afterOutflow 2 2 demRidge (1 / 20) (fun _ _ => 0) 0 0
      = max 0 (rainedW (1 / 20) (fun _ _ => 0) 0 0
          - (1 / 5 : ℚ) * specOutflowPotential 2 2
              (surfaceOf demRidge (rainedW (1 / 20) (fun _ _ => 0))) 0 0) :=
  C8_outflow_potential 2 2 (by norm_num) (by norm_num) demRidge (fun _ _ => 0)
    (1 / 20) 0 0 (by norm_num) (by norm_num)

/-- C9 (counterexample): a negative rainfall and a negative infiltration
rate are both accepted without any error — the run completes normally, so
no eager `ConfigError` validation exists in the code. -/
theorem C9_counterexample :
    exceptIsOk (simulateChecked 1 1 (fun _ _ => 0) (Config.mk (-50) 1 0 false)) = true
    ∧ exceptIsOk (simulateChecked 1 1 (fun _ _ => 0) (Config.mk 0 1 (-1) false)) = true :=
  ⟨rfl, rfl⟩

/-- C9 (amended): the code performs no configuration validation.  Negative
rainfall or infiltration rates are accepted and the run completes; the only
failure is a division by zero when `step_count = 0`, raised while computing
the per-step rainfall before any step executes; for `step_count ≥ 1` the
simulation is total and never fails. -/
theorem C9_no_validation (m n : ℕ) (dem : Grid) (cfg : Config) :
    (1 ≤ cfg.steps → exceptIsOk (simulateChecked m n dem cfg) = true)
    ∧ (cfg.steps = 0 →
        simulateChecked m n dem cfg = Except.error SimError.zeroDivisionError) := by
  constructor
  · intro h
    have h0 : ¬cfg.steps = 0 := by omega
    simp [simulateChecked, exceptIsOk, h0]
  · intro h
    simp [simulateChecked, h]

/-- Witness for C9: a three-step run returns normally; a zero-step run
raises the division-by-zero error. -/
theorem C9_witness :
    exceptIsOk (simulateChecked 1 1 (fun _ _ => 0) (Config.mk 120 3 (2 / 1000) true)) = true
    ∧ simulateChecked 1 1 (fun _ _ => 0) (Config.mk 120 0 (2 / 1000) true)
        = Except.error SimError.zeroDivisionError :=
  ⟨(C9_no_validation 1 1 (fun _ _ => 0) (Config.mk 120 3 (2 / 1000) true)).1 (by decide),
    (C9_no_validation 1 1 (fun _ _ => 0) (Config.mk 120 0 (2 / 1000) true)).2 rfl⟩

/-- C10: a run never changes the elevation field — at the state level the
returned state carries the original elevations unchanged — and the returned
water grid is the separately-allocated depth grid evolved from all-zero,
not the elevation grid. -/
theorem C10_elevation_preserved (m n : ℕ) (dem : Grid) (cfg : Config) :
    (simulateS m n dem cfg).dem = dem
    ∧ (simulateS m n dem cfg).water = simulate m n dem cfg := by
  have key : ∀ t : ℕ,
      ((stepS m n cfg.infiltration_m cfg.allow_edge_outflow (rainPerStep cfg))^[t]
          (SimState.mk dem (fun _ _ => 0))).dem = dem
      ∧ ((stepS m n cfg.infiltration_m cfg.allow_edge_outflow (rainPerStep cfg))^[t]
          (SimState.mk dem (fun _ _ => 0))).water
        = (step m n dem cfg.infiltration_m cfg.allow_edge_outflow
            (rainPerStep cfg))^[t] (fun _ _ => 0) := by
    intro t
    induction t with
    | zero => exact ⟨rfl, rfl⟩
    | succ t ih =>
        rw [Function.iterate_succ_apply', Function.iterate_succ_apply']
        constructor
        · rw [stepS_dem]
          exact ih.1
        · rw [stepS_water, ih.1, ih.2]
  exact ⟨(key cfg.steps).1, (key cfg.steps).2⟩

end FloodSim
